import Mathlib

/-!
Shallow embedding of the weather/location services of the DjangoWeatherReminder
repository (`src/app/services/weather_service.py`, `src/app/services/city_service.py`,
`src/app/models.py`), together with theorems settling the frozen claims about them.

Conventions of the embedding:
* JSON values decoded from upstream responses are modelled by `JVal`.  JSON
  numbers are modelled as `Int`: the only numeric fields the service computes
  with are epoch timestamps and timezone offsets, which are integers; all other
  numeric payload fields are moved around opaquely, never computed with.
* Python code that can raise is modelled in `Except PyErr`; `dict.get`,
  `[0]`-indexing, iteration and numeric coercion follow Python semantics,
  including which exception each ill-typed operation raises.
* Wall-clock time (`datetime.now`) is passed in explicitly as `now`
  (epoch seconds); `datetime.fromtimestamp(q, tz=utc).hour` becomes `pyHour q`,
  the civil-day index becomes `pyDay q`.
* External collaborators (Redis cache, database, the upstream HTTP API) are
  modelled as oracle fields of an environment record, and the side effects the
  service performs are recorded in an explicit trace of `Eff` values.
-/

namespace DJWR

/-- JSON values as decoded by `response.json()`. -/
inductive JVal where
  | null
  | bool (b : Bool)
  | num (n : Int)
  | str (s : String)
  | arr (elems : List JVal)
  | obj (fields : List (String × JVal))

mutual

/-- Decidable equality for `JVal` (the automatic deriving does not handle the
nested occurrence of `List`). -/
def jdec : (a b : JVal) → Decidable (a = b)
  | .null, .null => isTrue rfl
  | .null, .bool _ => isFalse (fun h => nomatch h)
  | .null, .num _ => isFalse (fun h => nomatch h)
  | .null, .str _ => isFalse (fun h => nomatch h)
  | .null, .arr _ => isFalse (fun h => nomatch h)
  | .null, .obj _ => isFalse (fun h => nomatch h)
  | .bool _, .null => isFalse (fun h => nomatch h)
  | .bool a, .bool b =>
    match decEq a b with
    | isTrue h => isTrue (h ▸ rfl)
    | isFalse h => isFalse (fun hh => h (by injection hh))
  | .bool _, .num _ => isFalse (fun h => nomatch h)
  | .bool _, .str _ => isFalse (fun h => nomatch h)
  | .bool _, .arr _ => isFalse (fun h => nomatch h)
  | .bool _, .obj _ => isFalse (fun h => nomatch h)
  | .num _, .null => isFalse (fun h => nomatch h)
  | .num _, .bool _ => isFalse (fun h => nomatch h)
  | .num a, .num b =>
    match decEq a b with
    | isTrue h => isTrue (h ▸ rfl)
    | isFalse h => isFalse (fun hh => h (by injection hh))
  | .num _, .str _ => isFalse (fun h => nomatch h)
  | .num _, .arr _ => isFalse (fun h => nomatch h)
  | .num _, .obj _ => isFalse (fun h => nomatch h)
  | .str _, .null => isFalse (fun h => nomatch h)
  | .str _, .bool _ => isFalse (fun h => nomatch h)
  | .str _, .num _ => isFalse (fun h => nomatch h)
  | .str a, .str b =>
    match decEq a b with
    | isTrue h => isTrue (h ▸ rfl)
    | isFalse h => isFalse (fun hh => h (by injection hh))
  | .str _, .arr _ => isFalse (fun h => nomatch h)
  | .str _, .obj _ => isFalse (fun h => nomatch h)
  | .arr _, .null => isFalse (fun h => nomatch h)
  | .arr _, .bool _ => isFalse (fun h => nomatch h)
  | .arr _, .num _ => isFalse (fun h => nomatch h)
  | .arr _, .str _ => isFalse (fun h => nomatch h)
  | .arr as, .arr bs =>
    match jdecL as bs with
    | isTrue h => isTrue (h ▸ rfl)
    | isFalse h => isFalse (fun hh => h (by injection hh))
  | .arr _, .obj _ => isFalse (fun h => nomatch h)
  | .obj _, .null => isFalse (fun h => nomatch h)
  | .obj _, .bool _ => isFalse (fun h => nomatch h)
  | .obj _, .num _ => isFalse (fun h => nomatch h)
  | .obj _, .str _ => isFalse (fun h => nomatch h)
  | .obj _, .arr _ => isFalse (fun h => nomatch h)
  | .obj as, .obj bs =>
    match jdecF as bs with
    | isTrue h => isTrue (h ▸ rfl)
    | isFalse h => isFalse (fun hh => h (by injection hh))
termination_by structural a _ => a

/-- Decidable equality for lists of `JVal`. -/
def jdecL : (as bs : List JVal) → Decidable (as = bs)
  | [], [] => isTrue rfl
  | [], _ :: _ => isFalse (fun h => nomatch h)
  | _ :: _, [] => isFalse (fun h => nomatch h)
  | a :: as, b :: bs =>
    match jdec a b with
    | isTrue h1 =>
      match jdecL as bs with
      | isTrue h2 => isTrue (h1 ▸ h2 ▸ rfl)
      | isFalse h2 => isFalse (fun hh => h2 (by injection hh))
    | isFalse h1 => isFalse (fun hh => h1 (by injection hh))
termination_by structural as _ => as

/-- Decidable equality for JSON-object field lists. -/
def jdecF : (as bs : List (String × JVal)) → Decidable (as = bs)
  | [], [] => isTrue rfl
  | [], _ :: _ => isFalse (fun h => nomatch h)
  | _ :: _, [] => isFalse (fun h => nomatch h)
  | (k, v) :: as, (k2, v2) :: bs =>
    match decEq k k2 with
    | isTrue hk =>
      match jdec v v2 with
      | isTrue h1 =>
        match jdecF as bs with
        | isTrue h2 => isTrue (hk ▸ h1 ▸ h2 ▸ rfl)
        | isFalse h2 => isFalse (fun hh => h2 (by injection hh))
      | isFalse h1 => isFalse (fun hh => h1 (by
          injection hh with hp ht
          exact congrArg Prod.snd hp))
    | isFalse hk => isFalse (fun hh => hk (by
        injection hh with hp ht
        exact congrArg Prod.fst hp))
termination_by structural as _ => as

end

instance : DecidableEq JVal := jdec

/-- Python runtime exceptions that the modelled code can raise. -/
inductive PyErr where
  | attrError
  | typeError
  | indexError
  | keyError
deriving DecidableEq

/-- `d.get(k, dflt)` on a decoded JSON value: attribute error unless it is a dict. -/
def pyGet (v : JVal) (k : String) (dflt : JVal) : Except PyErr JVal :=
  match v with
  | .obj fields => .ok ((fields.lookup k).getD dflt)
  | _ => .error .attrError

/-- `v[0]` on a decoded JSON value, with Python's per-type failure mode. -/
def pyIndex0 : JVal → Except PyErr JVal
  | .arr (x :: _) => .ok x
  | .arr [] => .error .indexError
  | .str s => if s.isEmpty then .error .indexError else .ok (.str (String.singleton s.front))
  | .obj _ => .error .keyError
  | _ => .error .typeError

/-- Python truthiness of a decoded JSON value. -/
def pyTruthy : JVal → Bool
  | .null => false
  | .bool b => b
  | .num q => decide (q ≠ 0)
  | .str s => !s.isEmpty
  | .arr xs => !xs.isEmpty
  | .obj fs => !fs.isEmpty

/-- Numeric view of a decoded JSON value (Python `bool` is numeric). -/
def jNum? : JVal → Option Int
  | .num q => some q
  | .bool b => some (if b then 1 else 0)
  | _ => none

/-- Using a JSON value in an arithmetic comparison: `TypeError` unless numeric. -/
def asNum (v : JVal) : Except PyErr Int :=
  match jNum? v with
  | some q => .ok q
  | none => .error .typeError

/-- `for item in v`: lists iterate elements, strings iterate characters,
dicts iterate keys, everything else raises `TypeError`. -/
def pyIter : JVal → Except PyErr (List JVal)
  | .arr xs => .ok xs
  | .str s => .ok (s.toList.map (fun c => .str (String.singleton c)))
  | .obj fs => .ok (fs.map (fun kv => .str kv.1))
  | _ => .error .typeError

/-- `.hour` of `datetime.fromtimestamp(q, tz=utc)`. -/
def pyHour (q : Int) : Int := (q.emod 86400).fdiv 3600

/-- `.minute` of `datetime.fromtimestamp(q, tz=utc)`. -/
def pyMinute (q : Int) : Int := (q.emod 3600).fdiv 60

/-- Civil-day index (days since the epoch) of `datetime.fromtimestamp(q, tz=utc)`;
two timestamps have the same year/month/day exactly when their indices agree. -/
def pyDay (q : Int) : Int := q.fdiv 86400

/-- One normalized point of `_parse_current_response` (field order as in the
dict literal at weather_service.py:238-253). -/
structure CurrentPoint where
  dt : JVal
  temp : JVal
  feels_like : JVal
  humidity : JVal
  pressure : JVal
  wind_speed : JVal
  wind_deg : JVal
  visibility : JVal
  clouds : JVal
  uvi : JVal
  description : JVal
  icon : JVal

/-- One normalized point of `_parse_forecast_response` (field order as in the
dict literal at weather_service.py:301-319). -/
structure ForecastPoint where
  dt : JVal
  temp : JVal
  temp_min : JVal
  temp_max : JVal
  feels_like : JVal
  humidity : JVal
  pressure : JVal
  wind_speed : JVal
  wind_deg : JVal
  visibility : JVal
  clouds : JVal
  uvi : JVal
  pop : JVal
  rain : JVal
  snow : JVal
  description : JVal
  icon : JVal

/-- `WeatherService._parse_current_response` (weather_service.py:220-253). -/
def parse_current_response (api_data : JVal) : Except PyErr (List CurrentPoint) := do
  let current ← pyGet api_data "current" (.obj [])
  let wlist ← pyGet current "weather" (.arr [.obj []])
  let weather ← pyIndex0 wlist
  let dt ← pyGet current "dt" (.num 0)
  let temp ← pyGet current "temp" (.num 0)
  let feels_like ← pyGet current "feels_like" (.num 0)
  let humidity ← pyGet current "humidity" (.num 0)
  let pressure ← pyGet current "pressure" (.num 0)
  let wind_speed ← pyGet current "wind_speed" (.num 0)
  let wind_deg ← pyGet current "wind_deg" .null
  let visibility ← pyGet current "visibility" .null
  let clouds ← pyGet current "clouds" .null
  let uvi ← pyGet current "uvi" .null
  let description ← pyGet weather "description" (.str "")
  let icon ← pyGet weather "icon" (.str "")
  .ok [⟨dt, temp, feels_like, humidity, pressure, wind_speed, wind_deg,
        visibility, clouds, uvi, description, icon⟩]

/-- Loop body of `_parse_forecast_response` normalizing one raw item
(weather_service.py:282-320): `weather` is read first, then `temp` is flattened
when it is a daily-aggregate dict (preferring `day`, falling back to `min`,
carrying `min`/`max` separately), then `feels_like` likewise.  `dict.get` on a
value the `isinstance` check has just established to be a dict cannot raise and
is written directly with `lookup`/`getD`. -/
def parse_forecast_item (item : JVal) : Except PyErr ForecastPoint := do
  let wlist ← pyGet item "weather" (.arr [.obj []])
  let weather ← pyIndex0 wlist
  let temp0 ← pyGet item "temp" (.num 0)
  let tmm : JVal × JVal × JVal :=
    match temp0 with
    | .obj tfs =>
      ((tfs.lookup "day").getD ((tfs.lookup "min").getD (.num 0)),
       (tfs.lookup "min").getD .null,
       (tfs.lookup "max").getD .null)
    | _ => (temp0, JVal.null, JVal.null)
  let feels0 ← pyGet item "feels_like" (.num 0)
  let feels_like : JVal :=
    match feels0 with
    | .obj ffs => (ffs.lookup "day").getD ((ffs.lookup "morn").getD (.num 0))
    | _ => feels0
  let dt ← pyGet item "dt" (.num 0)
  let humidity ← pyGet item "humidity" (.num 0)
  let pressure ← pyGet item "pressure" (.num 0)
  let wind_speed ← pyGet item "wind_speed" (.num 0)
  let wind_deg ← pyGet item "wind_deg" .null
  let visibility ← pyGet item "visibility" .null
  let clouds ← pyGet item "clouds" .null
  let uvi ← pyGet item "uvi" .null
  let pop ← pyGet item "pop" .null
  let rain ← pyGet item "rain" .null
  let snow ← pyGet item "snow" .null
  let description ← pyGet weather "description" (.str "")
  let icon ← pyGet weather "icon" (.str "")
  .ok ⟨dt, tmm.1, tmm.2.1, tmm.2.2, feels_like, humidity, pressure, wind_speed,
       wind_deg, visibility, clouds, uvi, pop, rain, snow, description, icon⟩

/-- The fixed local-hour schedule `[2, 5, 8, 11, 14, 17, 20, 23]` used by the
"today"/"tomorrow" filters and by `_merge_today_data`. -/
def targetLocalHours : List Int := [2, 5, 8, 11, 14, 17, 20, 23]

/-- Sort key `x.get("dt", 0)` used on already-filtered points (their `dt` is
numeric by the time a sort happens). -/
def dtKey (p : ForecastPoint) : Int := (jNum? p.dt).getD 0

/-- Comparison used to model Python's ascending `list.sort(key=lambda x: x.get("dt", 0))`.
Python's sort is stable; so is `List.insertionSort`, and for a total preorder a
stable ascending sort is unique, so the model matches the source's sort. -/
def dtLe (a b : ForecastPoint) : Prop := dtKey a ≤ dtKey b

instance : DecidableRel dtLe := fun a b => inferInstanceAs (Decidable (dtKey a ≤ dtKey b))

instance : IsTotal ForecastPoint dtLe := ⟨fun a b => le_total (dtKey a) (dtKey b)⟩

instance : IsTrans ForecastPoint dtLe := ⟨fun _ _ _ h1 h2 => le_trans h1 h2⟩

/-- Monadic filter keeping source order, for loops that conditionally append. -/
def filterE {α : Type} (p : α → Except PyErr Bool) : List α → Except PyErr (List α)
  | [] => .ok []
  | x :: xs => do
    let b ← p x
    let rest ← filterE p xs
    .ok (if b then x :: rest else rest)

/-- Membership test of the "today" loop (weather_service.py:356-370): the point
must fall in the local day `dayIdx` (range check, then the redundant local-date
check) and its local hour must be on the schedule.  The comparison raises
`TypeError` when `dt` is not numeric, as in Python. -/
def todayCheck (tzo : Int) (dayIdx : Int) (p : ForecastPoint) : Except PyErr Bool := do
  let q ← asNum p.dt
  let dayStart : Int := dayIdx * 86400 - tzo
  if dayStart ≤ q ∧ q < dayStart + 86400 then
    if pyDay (q + tzo) = dayIdx then
      .ok (decide (pyHour (q + tzo) ∈ targetLocalHours))
    else
      .ok false
  else
    .ok false

/-- Membership test of the "tomorrow" candidate loop (weather_service.py:450-462). -/
def tomorrowCheck (tzo : Int) (dayIdx : Int) (p : ForecastPoint) : Except PyErr Bool := do
  let q ← asNum p.dt
  let dayStart : Int := dayIdx * 86400 - tzo
  if dayStart ≤ q ∧ q < dayStart + 86400 then
    .ok (decide (pyDay (q + tzo) = dayIdx))
  else
    .ok false

/-- `diff_minutes` of the tomorrow closest-match search (weather_service.py:485-497). -/
def hourDiffMinutes (targetHour : Int) (h m : Int) : Nat :=
  if h = targetHour then m.natAbs
  else
    let hd := h - targetHour
    let hd := if hd > 12 then hd - 24 else if hd < -12 then hd + 24 else hd
    hd.natAbs * 60 + m.natAbs

/-- Inner loop of the tomorrow selection: the best not-yet-used candidate within
60 minutes of `targetHour`, the first strict improver winning ties
(weather_service.py:469-502).  Candidates are tagged with their list index,
standing for Python's `id(item)` identity (the parser allocates a fresh dict per
item, so identity and position coincide). -/
def pickBest (tzo : Int) (targetHour : Int) (cands : List (Nat × ForecastPoint))
    (used : List Nat) : Option (Nat × ForecastPoint) :=
  (cands.foldl
    (fun (best : Option (Nat × ForecastPoint × Nat)) ic =>
      if ic.1 ∈ used then best
      else
        let lt := dtKey ic.2 + tzo
        let diff := hourDiffMinutes targetHour (pyHour lt) (pyMinute lt)
        match best with
        | none => if diff ≤ 60 then some (ic.1, ic.2, diff) else none
        | some (bi, bp, bd) =>
          if diff ≤ 60 ∧ diff < bd then some (ic.1, ic.2, diff) else some (bi, bp, bd))
    none).map (fun t => (t.1, t.2.1))

/-- Outer loop of the tomorrow selection (weather_service.py:465-506): one pick
per scheduled hour, each candidate used at most once. -/
def selectTomorrow (tzo : Int) (cands : List ForecastPoint) : List ForecastPoint :=
  (targetLocalHours.foldl
    (fun (st : List ForecastPoint × List Nat) th =>
      match pickBest tzo th cands.enum st.2 with
      | some (i, p) => (st.1 ++ [p], st.2 ++ [i])
      | none => st)
    ([], [])).1

/-- Period filter of `_parse_forecast_response` (weather_service.py:322-530),
applied to the normalized items.  `now` is the value of `datetime.now(utc)` in
epoch seconds.  (The `target_utc_hours` lists computed in the source are dead
code — never read — and are not modelled.) -/
def filter_by_period (api_data : JVal) (period : String) (now : Int)
    (parsed : List ForecastPoint) : Except PyErr (List ForecastPoint) :=
  if period = "hourly" then .ok (parsed.take 12)
  else if period = "today" then do
    let tzJ ← pyGet api_data "timezone_offset" (.num 0)
    let tzo ← asNum tzJ
    let dayIdx := pyDay (now + tzo)
    let items ← filterE (todayCheck tzo dayIdx) parsed
    .ok (items.insertionSort dtLe)
  else if period = "tomorrow" then do
    let tzJ ← pyGet api_data "timezone_offset" (.num 0)
    let tzo ← asNum tzJ
    let dayIdx := pyDay (now + tzo) + 1
    let cands ← filterE (tomorrowCheck tzo dayIdx) parsed
    .ok ((selectTomorrow tzo cands).insertionSort dtLe)
  else if period = "3days" then .ok (parsed.take 3)
  else if period = "week" then .ok (parsed.take 7)
  else .ok (parsed.take 1)

/-- `WeatherService._parse_forecast_response` (weather_service.py:255-530):
select the `hourly` or `daily` stream by period, normalize every item, then
filter by period. -/
def parse_forecast_response (api_data : JVal) (period : String) (now : Int) :
    Except PyErr (List ForecastPoint) := do
  let rawList ←
    if period = "hourly" ∨ period = "today" ∨ period = "tomorrow" then
      pyGet api_data "hourly" (.arr [])
    else
      pyGet api_data "daily" (.arr [])
  if !pyTruthy rawList then .ok []
  else do
    let items ← pyIter rawList
    let parsed ← items.mapM parse_forecast_item
    filter_by_period api_data period now parsed

end DJWR


deriving instance DecidableEq for Except
deriving instance DecidableEq for DJWR.CurrentPoint
deriving instance DecidableEq for DJWR.ForecastPoint

namespace DJWR

/-- `WeatherService._get_cache_ttl` (weather_service.py:57-81): the per-period
TTL table, defaulting to 600 seconds for unknown periods. -/
def get_cache_ttl (period : String) : Nat :=
  if period = "current" then 600
  else if period = "hourly" then 900
  else if period = "today" then 1800
  else if period = "tomorrow" then 1800
  else if period = "3days" then 3600
  else if period = "week" then 3600
  else 600

/-- `datetime(now.year, now.month, now.day, tzinfo=utc).timestamp()` for the
current UTC time `now`: midnight of the current UTC day. -/
def todayStartOf (now : Int) : Int := 86400 * (now.fdiv 86400)

/-- One pass of the `_merge_today_data` dictionary-building loops
(weather_service.py:757-773): a point is recorded under its UTC hour when its
timestamp is numeric, falls inside the current UTC day, and its UTC hour is on
the schedule; a later point at the same hour overwrites an earlier one. -/
def mergeUpd (todayStart : Int) (d : Int → Option ForecastPoint) (p : ForecastPoint) :
    Except PyErr (Int → Option ForecastPoint) := do
  let q ← asNum p.dt
  if todayStart ≤ q ∧ q < todayStart + 86400 then
    let h := pyHour q
    if h ∈ targetLocalHours then
      .ok (fun h' => if h' = h then some p else d h')
    else .ok d
  else .ok d

/-- `WeatherService._merge_today_data` (weather_service.py:735-783): build an
hour-keyed dictionary from the saved points then the new points (new data
overwriting saved data at the same hour), read it back in schedule order, and
sort ascending by timestamp. -/
def merge_today_data (now : Int) (saved_data new_data : List ForecastPoint) :
    Except PyErr (List ForecastPoint) := do
  let todayStart := todayStartOf now
  let d1 ← saved_data.foldlM (mergeUpd todayStart) (fun _ => none)
  let d2 ← new_data.foldlM (mergeUpd todayStart) d1
  let result := targetLocalHours.filterMap d2
  .ok (result.insertionSort dtLe)

/-- Side effects of one `fetch_forecast`/`search_cities` invocation, in order. -/
inductive Eff where
  | cacheRead
  | cacheWrite (ttl : Nat)
  | dbRead
  | dbWrite
  | apiCall
  | sleep (secs : Nat)
deriving DecidableEq

/-- Errors `fetch_forecast` can terminate with. -/
inductive FetchErr where
  | invalidPeriod
  | upstream
  | py (e : PyErr)
deriving DecidableEq

/-- Oracle for the collaborators of one `fetch_forecast` call: the decoded Redis
value (`none` on a miss or any cache error), the outcome of the lightweight
timezone probe made on a cache hit, the stored `WeatherData.data` row for
(city, "today") if any, the outcome of the main upstream call, and the current
UTC time in epoch seconds. -/
structure FetchEnv where
  cached : Option (List ForecastPoint)
  tzProbe : Except Unit JVal
  savedRow : Option (List ForecastPoint)
  apiResp : Except Unit JVal
  now : Int

/-- Timezone offset obtained by the lightweight probe in the cache-hit branch
(weather_service.py:573-590): every exception, including a malformed body,
falls back to `0`. -/
def probeTz (r : Except Unit JVal) : JVal :=
  match r with
  | .error _ => .num 0
  | .ok j =>
    match pyGet j "timezone_offset" (.num 0) with
    | .ok v => v
    | .error _ => .num 0

/-- `WeatherService.fetch_forecast` (weather_service.py:532-660), with the side
effects it performs recorded in order: validate the period; read the cache (a
hit returns the cached list plus a probed timezone offset); on a miss, for
"today" only, read the stored snapshot from the database; call the upstream
API; parse and period-filter; for "today" with a non-empty stored snapshot,
merge stored and fresh points; write cache (with the period TTL) and upsert the
database row.  Uncaught Python exceptions from parsing/merging propagate. -/
def fetch_forecast (env : FetchEnv) (period : String) :
    Except FetchErr (List ForecastPoint × JVal) × List Eff :=
  if period ∉ (["today", "tomorrow", "3days", "week", "hourly"] : List String) then
    (.error .invalidPeriod, [])
  else
    match env.cached with
    | some (p :: ps) => (.ok (p :: ps, probeTz env.tzProbe), [.cacheRead, .apiCall])
    | _ =>
      let saved : Option (List ForecastPoint) :=
        if period = "today" then
          match env.savedRow with
          | some (s :: ss) => some (s :: ss)
          | _ => none
        else none
      let tr0 : List Eff :=
        if period = "today" then [.cacheRead, .dbRead] else [.cacheRead]
      match env.apiResp with
      | .error _ => (.error .upstream, tr0 ++ [.apiCall])
      | .ok api =>
        match parse_forecast_response api period env.now with
        | .error e => (.error (.py e), tr0 ++ [.apiCall])
        | .ok pts =>
          match pyGet api "timezone_offset" (.num 0) with
          | .error e => (.error (.py e), tr0 ++ [.apiCall])
          | .ok tz =>
            match (match saved with
                   | some sd => merge_today_data env.now sd pts
                   | none => .ok pts) with
            | .error e => (.error (.py e), tr0 ++ [.apiCall])
            | .ok data =>
              (.ok (data, tz),
               tr0 ++ [.apiCall, .cacheWrite (get_cache_ttl period), .dbWrite])

/-- One candidate from the geocoding response, fields raw as returned
(`_parse_geocoding_response`, weather_service.py:785-807). -/
structure GeoCity where
  name : JVal
  country : JVal
  lat : JVal
  lon : JVal

/-- Loop body of `_parse_geocoding_response` (weather_service.py:798-805). -/
def parse_geo_item (item : JVal) : Except PyErr GeoCity := do
  let n ← pyGet item "name" (.str "")
  let c ← pyGet item "country" (.str "")
  let la ← pyGet item "lat" (.num 0)
  let lo ← pyGet item "lon" (.num 0)
  .ok ⟨n, c, la, lo⟩

/-- `WeatherService._parse_geocoding_response` (weather_service.py:785-807). -/
def parse_geocoding_response (api_data : JVal) : Except PyErr (List GeoCity) := do
  let items ← pyIter api_data
  items.mapM parse_geo_item

/-- Outcome of one attempted upstream geocoder call. -/
inductive UpOut where
  | ok (body : JVal)
  | httpError (status : Nat)
  | transport

/-- Errors `WeatherService.search_cities` can terminate with. -/
inductive SearchErr where
  | http (status : Nat)
  | transport
  | py (e : PyErr)
deriving DecidableEq

/-- `max_retries` of `WeatherService.search_cities` (weather_service.py:692). -/
def maxRetries : Nat := 3

/-- `retry_delay` of `WeatherService.search_cities` (weather_service.py:693). -/
def retryDelay : Nat := 1

/-- The `for attempt in range(max_retries)` loop of `WeatherService.search_cities`
(weather_service.py:695-733), driven by an oracle giving each attempt's outcome.
A 429 HTTP error sleeps `retry_delay * 2 ** attempt` and retries while
`attempt < max_retries - 1`, else re-raises; any other HTTP error re-raises at
once; any other request failure sleeps `retry_delay` and retries under the same
cap, else re-raises.  Falling off the loop returns `[]`. -/
def searchLoop (env : Nat → UpOut) : Nat → Nat → Except SearchErr (List GeoCity) × List Eff
  | 0, _ => (.ok [], [])
  | rem + 1, attempt =>
    match env attempt with
    | .ok body =>
      match parse_geocoding_response body with
      | .ok cities => (.ok cities, [.apiCall])
      | .error e => (.error (.py e), [.apiCall])
    | .httpError s =>
      if s = 429 then
        if attempt < maxRetries - 1 then
          match searchLoop env rem (attempt + 1) with
          | (r, tr) => (r, .apiCall :: .sleep (retryDelay * 2 ^ attempt) :: tr)
        else (.error (.http 429), [.apiCall])
      else (.error (.http s), [.apiCall])
    | .transport =>
      if attempt < maxRetries - 1 then
        match searchLoop env rem (attempt + 1) with
        | (r, tr) => (r, .apiCall :: .sleep retryDelay :: tr)
      else (.error .transport, [.apiCall])

end DJWR
namespace DJWR

/-- Whitespace as recognised by Python's `str.strip()` (ASCII part). -/
def isSpaceChar (c : Char) : Bool :=
  c = ' ' || c = '\t' || c = '\n' || c = '\r' || c = '\x0b' || c = '\x0c'

/-- Python's `str.strip()`: drop leading and trailing whitespace. -/
def pyStrip (s : String) : String :=
  String.mk (((s.toList.dropWhile isSpaceChar).reverse.dropWhile isSpaceChar).reverse)

/-- `WeatherService.search_cities` (weather_service.py:662-733): blank queries
return `[]` without any upstream call; otherwise run the retry loop for up to
`max_retries` attempts. -/
def ws_search_cities (env : Nat → UpOut) (query : String) :
    Except SearchErr (List GeoCity) × List Eff :=
  if query = "" ∨ pyStrip query = "" then (.ok [], [])
  else searchLoop env maxRetries 0

/-- A row of the `cities` table (models.py:46-67): name and country strings and
decimal coordinates, unique together on (name, country). -/
structure City where
  name : String
  country : String
  latitude : Rat
  longitude : Rat
deriving DecidableEq

/-- A geocoder candidate as consumed by `CityService` (the in-schema
`{name, country, lat, lon}` tuples of the geocoding contract). -/
structure GeoDict where
  name : String
  country : String
  lat : Rat
  lon : Rat
deriving DecidableEq

/-- The (name, country) row-matching predicate of Django's
`get_or_create(name=..., country=..., ...)`. -/
def pairEq (name country : String) (c : City) : Bool :=
  c.name == name && c.country == country

/-- `CityService.get_or_create_city` (city_service.py:92-117): Django
`get_or_create` keyed on (name, country), creating with the given coordinates
when no row matches; the store is a list of rows in insertion order. -/
def get_or_create_city (db : List City) (name country : String) (lat lon : Rat) :
    (City × Bool) × List City :=
  match db.find? (pairEq name country) with
  | some c => ((c, false), db)
  | none =>
    let c : City := ⟨name, country, lat, lon⟩
    ((c, true), db ++ [c])

/-- Case-insensitive substring containment: Django's `name__icontains=q`. -/
def icontains (name q : String) : Bool :=
  ((name.toList.map Char.toLower).tails).any
    (fun t => (q.toList.map Char.toLower).isPrefixOf t)

/-- Ordering used for `order_by("name")`. -/
def nameLe (a b : City) : Prop := a.name ≤ b.name

instance : DecidableRel nameLe := fun a b => inferInstanceAs (Decidable (a.name ≤ b.name))

/-- An element of `CityService.search_cities`' result list: a stored/created
`City` row, or a raw geocoder dictionary when `create_in_db` is false. -/
inductive CityResult where
  | stored (c : City)
  | fromApi (d : GeoDict)
deriving DecidableEq

/-- `CityService.search_cities` (city_service.py:26-90), returning
(results, store afterwards, whether the upstream geocoder was invoked).
Blank queries return `[]`; otherwise the store is filtered by case-insensitive
name containment of the trimmed query and any matches are returned sorted by
name, without calling the geocoder; on no match the geocoder is called (any
failure degrading to `[]`), and its results are either materialized via
`get_or_create_city` (`create_in_db=True`) or returned raw. -/
def cs_search_cities (db : List City) (geo : Except Unit (List GeoDict))
    (query : String) (create_in_db : Bool) : List CityResult × List City × Bool :=
  if query = "" ∨ pyStrip query = "" then ([], db, false)
  else
    let q := pyStrip query
    let db_cities := (db.filter (fun c => icontains c.name q)).insertionSort nameLe
    if !db_cities.isEmpty then (db_cities.map .stored, db, false)
    else
      match geo with
      | .error _ => ([], db, true)
      | .ok api_cities =>
        if api_cities.isEmpty then ([], db, true)
        else if create_in_db then
          let st := api_cities.foldl
            (fun (st : List City × List City) d =>
              match get_or_create_city st.2 d.name d.country d.lat d.lon with
              | ((c, _), db2) => (st.1 ++ [c], db2))
            ([], db)
          (st.1.map .stored, st.2, true)
        else (api_cities.map .fromApi, db, true)

/-- Uniqueness invariant enforced by the `unique_together (name, country)`
constraint of the `cities` table: no two rows share a (name, country) pair. -/
def NoDupPairs (db : List City) : Prop :=
  (db.map (fun c => (c.name, c.country))).Nodup

/-- A resolution operation: a direct `get_or_create_city` call or a
`search_cities` call with arbitrary arguments. -/
inductive ResolveOp where
  | getOrCreate (name country : String) (lat lon : Rat)
  | search (geo : Except Unit (List GeoDict)) (query : String) (create_in_db : Bool)

/-- The store after running one resolution operation. -/
def applyOp (db : List City) : ResolveOp → List City
  | .getOrCreate n c la lo => (get_or_create_city db n c la lo).2
  | .search geo q cr => (cs_search_cities db geo q cr).2.1

/-- Whether an `Except` computation succeeded. -/
def exceptOk {α : Type} : Except PyErr α → Bool
  | .ok _ => true
  | .error _ => false

/-- The weather field of a point object, when present, is a non-empty array
headed by an object — the shape under which `weather = item.get("weather",
[{}])[0]` followed by `weather.get(...)` cannot raise. -/
def WeatherOK (fs : List (String × JVal)) : Prop :=
  fs.lookup "weather" = none ∨
  ∃ ws tl, fs.lookup "weather" = some (.arr (.obj ws :: tl))

/-- Payload shape under which `_parse_current_response` cannot raise. -/
def WFCurrent (api : JVal) : Prop :=
  ∃ fs gs, api = .obj fs ∧ (fs.lookup "current").getD (.obj []) = .obj gs ∧ WeatherOK gs

/-- Item shape under which the forecast normalization loop body cannot raise. -/
def WFItem (item : JVal) : Prop :=
  ∃ fs, item = .obj fs ∧ WeatherOK fs

/-- The timezone offset `_parse_forecast_response` extracts from a payload
(`api_data.get("timezone_offset", 0)`, weather_service.py:333), as a total
accessor for stating hypotheses. -/
def apiTz (api : JVal) : Int :=
  match api with
  | .obj fs => (jNum? ((fs.lookup "timezone_offset").getD (.num 0))).getD 0
  | _ => 0

/-- Qualification test of the `_merge_today_data` loops: a point is recorded
iff its timestamp is numeric, falls inside the current UTC day, and its UTC
hour is on the schedule. -/
def mergeQual (todayStart : Int) (p : ForecastPoint) : Bool :=
  match jNum? p.dt with
  | some q => decide ((todayStart ≤ q ∧ q < todayStart + 86400) ∧ pyHour q ∈ targetLocalHours)
  | none => false

/-- The UTC hour a merged point is keyed under. -/
def hourOfP (p : ForecastPoint) : Int := pyHour ((jNum? p.dt).getD 0)

/-- Qualification at a specific hour key. -/
def qualAt (ts hh : Int) (p : ForecastPoint) : Bool :=
  mergeQual ts p && (hourOfP p == hh)

end DJWR

deriving instance DecidableEq for DJWR.GeoCity

namespace DJWR

/-- C4: the cache TTL per period is exactly current=600, hourly=900, today=1800,
tomorrow=1800, 3days=3600, week=3600 seconds, and these are strictly monotonic
across increasing horizon: ttl(current)=600 < ttl(hourly)=900 < ttl(today)=1800
< ttl(3days)=3600. -/
theorem cache_ttl_table_correct :
    get_cache_ttl "current" = 600 ∧ get_cache_ttl "hourly" = 900 ∧
    get_cache_ttl "today" = 1800 ∧ get_cache_ttl "tomorrow" = 1800 ∧
    get_cache_ttl "3days" = 3600 ∧ get_cache_ttl "week" = 3600 ∧
    get_cache_ttl "current" < get_cache_ttl "hourly" ∧
    get_cache_ttl "hourly" < get_cache_ttl "today" ∧
    get_cache_ttl "today" < get_cache_ttl "3days" := by decide

/-- C2: for every period outside the five valid forecast periods,
`fetch_forecast` fails with the invalid-period error and performs no effect at
all — in particular no upstream call and no cache read or write. -/
theorem fetch_forecast_invalid_period (env : FetchEnv) (period : String)
    (h : period ∉ (["hourly", "today", "tomorrow", "3days", "week"] : List String)) :
    fetch_forecast env period = (.error .invalidPeriod, []) := by
  unfold fetch_forecast
  rw [if_pos]
  intro hmem
  apply h
  simp only [List.mem_cons, List.not_mem_nil, or_false] at hmem ⊢
  tauto

/-- Witness for C2 at the spec's own example period. -/
theorem fetch_forecast_invalid_period_witness :
    fetch_forecast ⟨none, .error (), none, .error (), 0⟩ "decade" =
      (.error .invalidPeriod, []) :=
  fetch_forecast_invalid_period ⟨none, .error (), none, .error (), 0⟩ "decade" (by decide)

/-- C7 counterexample: a transport failure on the first geocoder attempt is
retried (after a constant 1-second sleep) rather than propagated: with a
transport error on attempt 0 and a successful attempt 1, `search_cities`
returns the parsed result and the trace shows two upstream calls, contradicting
the claim that any non-429 upstream failure propagates without retry. -/
theorem transport_error_retried :
    ws_search_cities (fun n => if n = 0 then .transport else .ok (.arr [])) "Kyiv" =
      (.ok [], [.apiCall, .sleep 1, .apiCall]) ∧
    ((ws_search_cities (fun n => if n = 0 then .transport else .ok (.arr [])) "Kyiv").2.count
        .apiCall = 2) := by decide

end DJWR
namespace DJWR

/-- A query whose stripped form is non-empty is not blank. -/
theorem not_blank {query : String} (hq : pyStrip query ≠ "") :
    ¬(query = "" ∨ pyStrip query = "") := by
  rintro (rfl | h)
  · exact hq rfl
  · exact hq h

/-- One unfolding of the retry loop. -/
theorem searchLoop_succ (env : Nat → UpOut) (rem attempt : Nat) :
    searchLoop env (rem + 1) attempt =
      match env attempt with
      | .ok body =>
        match parse_geocoding_response body with
        | .ok cities => (.ok cities, [.apiCall])
        | .error e => (.error (.py e), [.apiCall])
      | .httpError s =>
        if s = 429 then
          if attempt < maxRetries - 1 then
            match searchLoop env rem (attempt + 1) with
            | (r, tr) => (r, .apiCall :: .sleep (retryDelay * 2 ^ attempt) :: tr)
          else (.error (.http 429), [.apiCall])
        else (.error (.http s), [.apiCall])
      | .transport =>
        if attempt < maxRetries - 1 then
          match searchLoop env rem (attempt + 1) with
          | (r, tr) => (r, .apiCall :: .sleep retryDelay :: tr)
        else (.error .transport, [.apiCall]) := rfl

/-- The retry loop at its three concrete fuel values. -/
theorem searchLoop_three (env : Nat → UpOut) (attempt : Nat) :
    searchLoop env 3 attempt = searchLoop env (2 + 1) attempt := rfl

theorem searchLoop_two (env : Nat → UpOut) (attempt : Nat) :
    searchLoop env 2 attempt = searchLoop env (1 + 1) attempt := rfl

theorem searchLoop_one (env : Nat → UpOut) (attempt : Nat) :
    searchLoop env 1 attempt = searchLoop env (0 + 1) attempt := rfl

/-- C7 (amended): only the geocoder search path retries.  A 429 is retried with
exponential backoff (1s then 2s), capped at 3 attempts, after which the 429
propagates; a non-429 HTTP error propagates immediately without retry; a
non-HTTP transport failure is also retried, with a constant 1-second delay, up
to the same 3-attempt cap, after which it propagates; a retried call can then
succeed.  The weather fetch path never retries: on an upstream failure
`fetch_forecast` propagates the error after exactly one upstream call. -/
theorem retry_policy_amended :
    (∀ (env : Nat → UpOut) (query : String) (s : Nat), pyStrip query ≠ "" →
       env 0 = UpOut.httpError s → s ≠ 429 →
       ws_search_cities env query = (.error (.http s), [.apiCall]))
  ∧ (∀ (env : Nat → UpOut) (query : String), pyStrip query ≠ "" →
       env 0 = UpOut.httpError 429 → env 1 = UpOut.httpError 429 →
       env 2 = UpOut.httpError 429 →
       ws_search_cities env query =
         (.error (.http 429), [.apiCall, .sleep 1, .apiCall, .sleep 2, .apiCall]))
  ∧ (∀ (env : Nat → UpOut) (query : String), pyStrip query ≠ "" →
       env 0 = UpOut.transport → env 1 = UpOut.transport → env 2 = UpOut.transport →
       ws_search_cities env query =
         (.error .transport, [.apiCall, .sleep 1, .apiCall, .sleep 1, .apiCall]))
  ∧ (∀ (env : Nat → UpOut) (query : String) (body : JVal) (cities : List GeoCity),
       pyStrip query ≠ "" →
       env 0 = UpOut.httpError 429 → env 1 = UpOut.ok body →
       parse_geocoding_response body = .ok cities →
       ws_search_cities env query = (.ok cities, [.apiCall, .sleep 1, .apiCall]))
  ∧ (∀ (env : FetchEnv) (period : String),
       period ∈ (["today", "tomorrow", "3days", "week", "hourly"] : List String) →
       env.cached = none → env.apiResp = .error () →
       (fetch_forecast env period).1 = .error .upstream ∧
       (fetch_forecast env period).2.count .apiCall = 1) := by
  refine ⟨?_, ?_, ?_, ?_, ?_⟩
  · intro env query s hq h0 hns
    unfold ws_search_cities
    rw [if_neg (not_blank hq)]
    show searchLoop env 3 0 = _
    rw [searchLoop_three, searchLoop_succ, h0]
    simp [hns]
  · intro env query hq h0 h1 h2
    unfold ws_search_cities
    rw [if_neg (not_blank hq)]
    show searchLoop env 3 0 = _
    rw [searchLoop_three, searchLoop_succ, h0]
    dsimp only
    rw [if_pos rfl, if_pos (show 0 < maxRetries - 1 by decide)]
    rw [searchLoop_two, searchLoop_succ, h1]
    dsimp only
    rw [if_pos rfl, if_pos (show 0 + 1 < maxRetries - 1 by decide)]
    rw [searchLoop_one, searchLoop_succ, h2]
    dsimp only
    rw [if_pos rfl, if_neg (show ¬(0 + 1 + 1 < maxRetries - 1) by decide)]
    decide
  · intro env query hq h0 h1 h2
    unfold ws_search_cities
    rw [if_neg (not_blank hq)]
    show searchLoop env 3 0 = _
    rw [searchLoop_three, searchLoop_succ, h0]
    dsimp only
    rw [if_pos (show 0 < maxRetries - 1 by decide)]
    rw [searchLoop_two, searchLoop_succ, h1]
    dsimp only
    rw [if_pos (show 0 + 1 < maxRetries - 1 by decide)]
    rw [searchLoop_one, searchLoop_succ, h2]
    dsimp only
    rw [if_neg (show ¬(0 + 1 + 1 < maxRetries - 1) by decide)]
    decide
  · intro env query body cities hq h0 h1 hp
    unfold ws_search_cities
    rw [if_neg (not_blank hq)]
    show searchLoop env 3 0 = _
    rw [searchLoop_three, searchLoop_succ, h0]
    dsimp only
    rw [if_pos rfl, if_pos (show 0 < maxRetries - 1 by decide)]
    rw [searchLoop_two, searchLoop_succ, h1]
    dsimp only
    rw [hp]
    simp [retryDelay]
  · intro env period hmem hc ha
    unfold fetch_forecast
    rw [if_neg (not_not_intro hmem), hc]
    dsimp only
    rw [ha]
    by_cases ht : period = "today" <;>
      simp [ht, List.count_cons, List.count_nil]

end DJWR

namespace DJWR

/-- Witness for the amended C7: a 500 propagates after one call, and three
transport failures give two constant-delay retries before propagating. -/
theorem retry_policy_amended_witness :
    ws_search_cities (fun _ => UpOut.httpError 500) "Kyiv" =
      (.error (.http 500), [.apiCall]) ∧
    ws_search_cities (fun _ => UpOut.transport) "Kyiv" =
      (.error .transport, [.apiCall, .sleep 1, .apiCall, .sleep 1, .apiCall]) :=
  ⟨retry_policy_amended.1 (fun _ => UpOut.httpError 500) "Kyiv" 500 (by decide) rfl
      (by decide),
   (retry_policy_amended.2.2.1 (fun _ => UpOut.transport) "Kyiv" (by decide) rfl rfl rfl)⟩

/-- C5: for a non-blank query, if the store holds at least one location whose
name contains the (stripped) query case-insensitively, `search_cities` returns
exactly those stored rows (sorted by name), leaves the store unchanged, and
never invokes the upstream geocoder — for any geocoder behaviour and either
persistence flag. -/
theorem db_first_search_no_geocoder (db : List City) (geo : Except Unit (List GeoDict))
    (query : String) (create_in_db : Bool)
    (hq : pyStrip query ≠ "")
    (hm : db.filter (fun c => icontains c.name (pyStrip query)) ≠ []) :
    cs_search_cities db geo query create_in_db =
      (((db.filter (fun c => icontains c.name (pyStrip query))).insertionSort nameLe).map
        .stored, db, false) := by
  simp only [cs_search_cities]
  rw [if_neg (not_blank hq)]
  cases hsort : (db.filter (fun c => icontains c.name (pyStrip query))).insertionSort nameLe with
  | nil =>
    exfalso
    apply hm
    have hp := List.perm_insertionSort nameLe (db.filter (fun c => icontains c.name (pyStrip query)))
    rw [hsort] at hp
    exact hp.symm.eq_nil
  | cons a l =>
    simp

/-- Witness for C5: with "Kyiv" stored, searching "Kyiv" returns the stored row
and reports no geocoder invocation. -/
theorem db_first_search_no_geocoder_witness :
    cs_search_cities [⟨"Kyiv", "UA", 50, 30⟩] (.error ()) "Kyiv" false =
      ([.stored ⟨"Kyiv", "UA", 50, 30⟩], [⟨"Kyiv", "UA", 50, 30⟩], false) := by
  have h := db_first_search_no_geocoder [⟨"Kyiv", "UA", 50, 30⟩] (.error ()) "Kyiv" false
    (by decide) (by decide)
  rw [h]
  decide

/-- C8: when the search falls back to a successful geocoder call with
`create_in_db = False`, it returns the raw geocoder tuples and the stored rows
are unchanged. -/
theorem search_no_persist_frame (db : List City) (query : String) (gs : List GeoDict)
    (hq : pyStrip query ≠ "")
    (hm : db.filter (fun c => icontains c.name (pyStrip query)) = []) :
    cs_search_cities db (.ok gs) query false = (gs.map .fromApi, db, true) := by
  simp only [cs_search_cities]
  rw [if_neg (not_blank hq), hm]
  cases gs <;> simp

/-- Witness for C8: a miss on "Lviv" over a store holding only "Kyiv" returns
the geocoder tuples and leaves the store as it was. -/
theorem search_no_persist_frame_witness :
    cs_search_cities [⟨"Kyiv", "UA", 50, 30⟩] (.ok [⟨"Lviv", "UA", 49, 24⟩]) "Lviv" false =
      ([.fromApi ⟨"Lviv", "UA", 49, 24⟩], [⟨"Kyiv", "UA", 50, 30⟩], true) :=
  search_no_persist_frame [⟨"Kyiv", "UA", 50, 30⟩] "Lviv" [⟨"Lviv", "UA", 49, 24⟩]
    (by decide) (by decide)

end DJWR

namespace DJWR



/-- `get_or_create_city` preserves the (name, country) uniqueness invariant. -/
theorem goc_preserves (db : List City) (n c : String) (la lo : Rat)
    (h : NoDupPairs db) : NoDupPairs (get_or_create_city db n c la lo).2 := by
  unfold get_or_create_city
  cases hf : db.find? (pairEq n c) with
  | some x => exact h
  | none =>
    show NoDupPairs (db ++ [⟨n, c, la, lo⟩])
    unfold NoDupPairs at h ⊢
    rw [List.map_append, List.nodup_append]
    refine ⟨h, List.nodup_singleton _, ?_⟩
    intro a ha hb
    simp only [List.map_cons, List.map_nil, List.mem_singleton] at hb
    subst hb
    rw [List.mem_map] at ha
    obtain ⟨x, hx, hxeq⟩ := ha
    have hnone := List.find?_eq_none.mp hf x hx
    apply hnone
    unfold pairEq
    have h1 : x.name = n := congrArg Prod.fst hxeq
    have h2 : x.country = c := congrArg Prod.snd hxeq
    rw [h1, h2]
    simp

/-- The materialization fold of `search_cities (create_in_db=True)` preserves
the uniqueness invariant. -/
theorem foldl_goc_preserves (gs : List GeoDict) :
    ∀ (acc db : List City), NoDupPairs db →
      NoDupPairs ((gs.foldl
        (fun (st : List City × List City) d =>
          (st.1 ++ [(get_or_create_city st.2 d.name d.country d.lat d.lon).1.1],
           (get_or_create_city st.2 d.name d.country d.lat d.lon).2))
        (acc, db)).2) := by
  induction gs with
  | nil => intro acc db h; simpa using h
  | cons d gs ih =>
    intro acc db h
    simp only [List.foldl_cons]
    exact ih _ _ (goc_preserves db d.name d.country d.lat d.lon h)

/-- `CityService.search_cities` preserves the uniqueness invariant for every
combination of arguments. -/
theorem search_preserves (db : List City) (geo : Except Unit (List GeoDict))
    (q : String) (cr : Bool) (h : NoDupPairs db) :
    NoDupPairs (cs_search_cities db geo q cr).2.1 := by
  simp only [cs_search_cities]
  split
  · exact h
  · split
    · exact h
    · split
      · exact h
      · split
        · exact h
        · split
          · exact foldl_goc_preserves _ [] db h
          · exact h



/-- C6: for a (name, country) pair not yet stored, `get_or_create_city` returns
`created=True` the first time and `created=False` the second, after which the
store has exactly one row for the pair; and no sequence of resolution
operations ever creates duplicate rows for the same pair. -/
theorem get_or_create_idempotent_unique :
    (∀ (db : List City) (n c : String) (la lo : Rat),
       db.find? (pairEq n c) = none →
       (get_or_create_city db n c la lo).1.2 = true ∧
       (get_or_create_city (get_or_create_city db n c la lo).2 n c la lo).1.2 = false ∧
       ((get_or_create_city (get_or_create_city db n c la lo).2 n c la lo).2.filter
           (pairEq n c)).length = 1)
  ∧ (∀ (ops : List ResolveOp) (db : List City),
       NoDupPairs db → NoDupPairs (ops.foldl applyOp db)) := by
  constructor
  · intro db n c la lo h0
    have hnew : pairEq n c (⟨n, c, la, lo⟩ : City) = true := by simp [pairEq]
    have hf2 : ((db ++ [(⟨n, c, la, lo⟩ : City)]).find? (pairEq n c)) =
        some (⟨n, c, la, lo⟩ : City) := by
      rw [List.find?_append, h0, Option.none_or]
      exact List.find?_cons_of_pos _ hnew
    have hfil : db.filter (pairEq n c) = [] := by
      rw [List.filter_eq_nil_iff]
      intro a ha
      exact List.find?_eq_none.mp h0 a ha
    refine ⟨?_, ?_, ?_⟩
    · unfold get_or_create_city
      rw [h0]
    · unfold get_or_create_city
      rw [h0]
      simp only []
      rw [hf2]
    · unfold get_or_create_city
      rw [h0]
      simp only []
      rw [hf2]
      simp only []
      rw [List.filter_append, hfil]
      simp [hnew]
  · intro ops
    induction ops with
    | nil => intro db h; simpa using h
    | cons op ops ih =>
      intro db h
      rw [List.foldl_cons]
      apply ih
      cases op with
      | getOrCreate n c la lo => exact goc_preserves db n c la lo h
      | search geo q cr => exact search_preserves db geo q cr h

/-- Witness for C6 on an empty store and a two-operation sequence. -/
theorem get_or_create_idempotent_unique_witness :
    ((get_or_create_city [] "Kyiv" "UA" 50 30).1.2 = true ∧
     (get_or_create_city (get_or_create_city [] "Kyiv" "UA" 50 30).2 "Kyiv" "UA" 50 30).1.2
       = false ∧
     ((get_or_create_city (get_or_create_city [] "Kyiv" "UA" 50 30).2 "Kyiv" "UA" 50 30).2.filter
         (pairEq "Kyiv" "UA")).length = 1) ∧
    NoDupPairs ([ResolveOp.getOrCreate "Kyiv" "UA" 50 30,
                 ResolveOp.getOrCreate "Kyiv" "UA" 50 30].foldl applyOp []) :=
  ⟨get_or_create_idempotent_unique.1 [] "Kyiv" "UA" 50 30 rfl,
   get_or_create_idempotent_unique.2 _ [] (by simp [NoDupPairs])⟩

end DJWR

namespace DJWR

@[simp] theorem exceptBind_ok {ε α β : Type} (a : α) (f : α → Except ε β) :
    (Except.ok a : Except ε α) >>= f = f a := rfl

@[simp] theorem exceptBind_err {ε α β : Type} (e : ε) (f : α → Except ε β) :
    (Except.error e : Except ε α) >>= f = .error e := rfl



/-- Inversion of a successful `Except` bind. -/
theorem bind_ok_inv {ε α β : Type} {e : Except ε α} {f : α → Except ε β} {b : β}
    (h : e >>= f = .ok b) : ∃ a, e = .ok a ∧ f a = .ok b := by
  cases e with
  | ok a => exact ⟨a, rfl, h⟩
  | error err => exact absurd h (by simp)



/-- C9 counterexample: normalization is not total over arbitrary JSON-shaped
input — a payload whose point carries `"weather": []` makes
`_parse_current_response` raise `IndexError` at `[{}])[0]`. -/
theorem normalization_not_total :
    parse_current_response (.obj [("current", .obj [("weather", .arr [])])]) =
      .error .indexError := by decide

/-- C9 (amended): normalization never fails provided the payload and each point
are JSON objects whose `weather` field, when present, is a non-empty array of
objects; and the claimed defaults hold: missing numeric fields default to `0`,
missing `description`/`icon` to `""`, missing optional fields to `null`, and a
daily-aggregate temperature object is flattened preferring `day` and falling
back to `min`, with `min`/`max` carried separately. -/
theorem normalization_defaults_amended :
    (∀ api : JVal, WFCurrent api → exceptOk (parse_current_response api) = true)
  ∧ parse_current_response (.obj []) =
      .ok [⟨.num 0, .num 0, .num 0, .num 0, .num 0, .num 0, .null, .null, .null, .null,
           .str "", .str ""⟩]
  ∧ (∀ item : JVal, WFItem item → exceptOk (parse_forecast_item item) = true)
  ∧ parse_forecast_item (.obj []) =
      .ok ⟨.num 0, .num 0, .null, .null, .num 0, .num 0, .num 0, .num 0, .null, .null,
           .null, .null, .null, .null, .null, .str "", .str ""⟩
  ∧ (∀ d mn mx : JVal,
      parse_forecast_item (.obj [("temp", .obj [("day", d), ("min", mn), ("max", mx)])]) =
        .ok ⟨.num 0, d, mn, mx, .num 0, .num 0, .num 0, .num 0, .null, .null, .null,
             .null, .null, .null, .null, .str "", .str ""⟩)
  ∧ (∀ mn : JVal,
      parse_forecast_item (.obj [("temp", .obj [("min", mn)])]) =
        .ok ⟨.num 0, mn, mn, .null, .num 0, .num 0, .num 0, .num 0, .null, .null, .null,
             .null, .null, .null, .null, .str "", .str ""⟩) := by
  refine ⟨?_, by decide, ?_, by decide, ?_, ?_⟩
  · rintro api ⟨fs, gs, rfl, hcur, hwok⟩
    rcases hwok with hw | ⟨ws, tl, hw⟩ <;>
      simp [parse_current_response, pyGet, pyIndex0, hcur, hw, exceptOk]
  · rintro item ⟨fs, rfl, hwok⟩
    rcases hwok with hw | ⟨ws, tl, hw⟩ <;>
      simp [parse_forecast_item, pyGet, pyIndex0, hw, exceptOk]
  · intro d mn mx
    rfl
  · intro mn
    rfl

/-- Witness for the amended C9 at concrete shapes. -/
theorem normalization_defaults_amended_witness :
    exceptOk (parse_current_response (.obj [("current", .obj [("dt", .num 7)])])) = true ∧
    exceptOk (parse_forecast_item (.obj [("humidity", .num 55)])) = true ∧
    parse_forecast_item (.obj [("temp", .obj [("day", .num 9), ("min", .num 1),
        ("max", .num 12)])]) =
      .ok ⟨.num 0, .num 9, .num 1, .num 12, .num 0, .num 0, .num 0, .num 0, .null, .null,
           .null, .null, .null, .null, .null, .str "", .str ""⟩ :=
  ⟨normalization_defaults_amended.1 _
      ⟨[("current", .obj [("dt", .num 7)])], [("dt", .num 7)], rfl, rfl, Or.inl rfl⟩,
   normalization_defaults_amended.2.2.1 _ ⟨[("humidity", .num 55)], rfl, Or.inl rfl⟩,
   normalization_defaults_amended.2.2.2.2.1 (.num 9) (.num 1) (.num 12)⟩

end DJWR

namespace DJWR

/-- Successful `dict.get` inverts to an object lookup. -/
theorem pyGet_ok {v : JVal} {k : String} {d x : JVal} (h : pyGet v k d = .ok x) :
    ∃ fs, v = .obj fs ∧ x = (fs.lookup k).getD d := by
  cases v with
  | obj fs =>
    refine ⟨fs, rfl, ?_⟩
    unfold pyGet at h
    injection h with h2
    exact h2.symm
  | null => exact absurd h (by simp [pyGet])
  | bool b => exact absurd h (by simp [pyGet])
  | num n => exact absurd h (by simp [pyGet])
  | str s => exact absurd h (by simp [pyGet])
  | arr es => exact absurd h (by simp [pyGet])

/-- Successful numeric coercion inverts to `jNum?`. -/
theorem asNum_ok {v : JVal} {q : Int} (h : asNum v = .ok q) : jNum? v = some q := by
  unfold asNum at h
  cases hj : jNum? v with
  | none => rw [hj] at h; exact absurd h (by simp)
  | some q2 => rw [hj] at h; injection h with h2; rw [h2]

/-- A successful monadic filter returns a sublist of its input. -/
theorem filterE_sublist {α : Type} (p : α → Except PyErr Bool) :
    ∀ (l r : List α), filterE p l = .ok r → r.Sublist l := by
  intro l
  induction l with
  | nil => intro r h; injection h with h2; rw [← h2]
  | cons x xs ih =>
    intro r h
    unfold filterE at h
    obtain ⟨b, hb, h⟩ := bind_ok_inv h
    obtain ⟨rest, hrest, h⟩ := bind_ok_inv h
    injection h with h2
    subst h2
    cases b with
    | true => simpa using (ih rest hrest).cons₂ x
    | false => simpa using (ih rest hrest).cons x

/-- Every element kept by a successful monadic filter satisfied the predicate. -/
theorem filterE_mem {α : Type} (p : α → Except PyErr Bool) :
    ∀ (l r : List α) (x : α), filterE p l = .ok r → x ∈ r → p x = .ok true := by
  intro l
  induction l with
  | nil =>
    intro r x h hx
    injection h with h2
    subst h2
    exact absurd hx (List.not_mem_nil x)
  | cons y ys ih =>
    intro r x h hx
    unfold filterE at h
    obtain ⟨b, hb, h⟩ := bind_ok_inv h
    obtain ⟨rest, hrest, h⟩ := bind_ok_inv h
    injection h with h2
    subst h2
    cases b with
    | true =>
      rcases (List.mem_cons.mp (by simpa using hx)) with rfl | hx2
      · exact hb
      · exact ih rest x hrest hx2
    | false => exact ih rest x hrest (by simpa using hx)

/-- A duplicate-free list contained in another list is no longer than it. -/
theorem nodup_subset_length {α : Type} [DecidableEq α] (l t : List α) (hn : l.Nodup)
    (hs : ∀ x ∈ l, x ∈ t) : l.length ≤ t.length :=
  calc l.length = l.toFinset.card := (List.toFinset_card_of_nodup hn).symm
  _ ≤ t.toFinset.card :=
      Finset.card_le_card (fun x hx => List.mem_toFinset.mpr (hs x (List.mem_toFinset.mp hx)))
  _ ≤ t.length := t.toFinset_card_le



/-- A point passing the "today" filter has a numeric timestamp whose local hour
is on the schedule. -/
theorem todayCheck_true {tzo dayIdx : Int} {p : ForecastPoint}
    (h : todayCheck tzo dayIdx p = .ok true) :
    ∃ q, jNum? p.dt = some q ∧ pyHour (q + tzo) ∈ targetLocalHours := by
  unfold todayCheck asNum at h
  cases hq : jNum? p.dt with
  | none => rw [hq] at h; exact absurd h (by simp)
  | some q =>
    rw [hq] at h
    simp only [exceptBind_ok] at h
    refine ⟨q, rfl, ?_⟩
    split at h
    · split at h
      · injection h with h2
        exact of_decide_eq_true h2
      · exact absurd h (by simp)
    · exact absurd h (by simp)

/-- The picking fold of the tomorrow selection adds at most one point per
scheduled hour. -/
theorem pick_foldl_length (tzo : Int) (cands : List ForecastPoint) :
    ∀ (hs : List Int) (st : List ForecastPoint × List Nat),
      ((hs.foldl (fun (st : List ForecastPoint × List Nat) th =>
          match pickBest tzo th cands.enum st.2 with
          | some (i, p) => (st.1 ++ [p], st.2 ++ [i])
          | none => st) st).1).length ≤ st.1.length + hs.length := by
  intro hs
  induction hs with
  | nil => intro st; simp
  | cons th hs ih =>
    intro st
    rw [List.foldl_cons]
    cases hpick : pickBest tzo th cands.enum st.2 with
    | some ip =>
      obtain ⟨i, p⟩ := ip
      dsimp only
      have h1 := ih (st.1 ++ [p], st.2 ++ [i])
      simp only [List.length_append, List.length_cons, List.length_nil] at h1 ⊢
      omega
    | none =>
      dsimp only
      have h1 := ih st
      simp only [List.length_cons] at h1 ⊢
      omega

/-- The tomorrow selection returns at most 8 points. -/
theorem selectTomorrow_length_le (tzo : Int) (cands : List ForecastPoint) :
    (selectTomorrow tzo cands).length ≤ 8 := by
  unfold selectTomorrow
  have := pick_foldl_length tzo cands targetLocalHours ([], [])
  simpa [targetLocalHours] using this

end DJWR

namespace DJWR

/-- C3 counterexample: the "today" filter neither deduplicates nor caps, so an
upstream payload with nine hourly points inside the scheduled hour 2 of the
current day yields a nine-point snapshot — more than the claimed bound of 8. -/
theorem parse_today_exceeds_eight :
    (parse_forecast_response
        (.obj [("timezone_offset", .num 0),
               ("hourly", .arr ((List.range 9).map (fun k =>
                  .obj [("dt", .num (86400 * 20000 + 7200 + (k : Int)))])))])
        "today" (86400 * 20000 + 43200)).map List.length = .ok 9 ∧ (8 : Nat) < 9 := by
  constructor
  · decide
  · decide

/-- C3 (amended): every snapshot is a list by construction; `current` snapshots
have length exactly 1; `hourly` keeps the first 12 points (so at most 48);
`today` has at most 8 points provided no two normalized points share a local
hour (true of genuine hourly data; without it the filter can exceed 8);
`tomorrow` has at most 8 points unconditionally; `3days` and `week` have
exactly 3 and 7 points when at least that many daily points are supplied. -/
theorem snapshot_shape_amended :
    (∀ (api : JVal) (l : List CurrentPoint),
       parse_current_response api = .ok l → l.length = 1)
  ∧ (∀ (api : JVal) (now : Int) (out : List ForecastPoint),
       parse_forecast_response api "hourly" now = .ok out → out.length ≤ 48)
  ∧ (∀ (api : JVal) (now : Int) (parsed out : List ForecastPoint),
       filter_by_period api "today" now parsed = .ok out →
       (parsed.map (fun p => pyHour (dtKey p + apiTz api))).Nodup →
       out.length ≤ 8)
  ∧ (∀ (api : JVal) (now : Int) (parsed out : List ForecastPoint),
       filter_by_period api "tomorrow" now parsed = .ok out → out.length ≤ 8)
  ∧ (∀ (api : JVal) (now : Int) (parsed out : List ForecastPoint),
       filter_by_period api "3days" now parsed = .ok out → 3 ≤ parsed.length →
       out.length = 3)
  ∧ (∀ (api : JVal) (now : Int) (parsed out : List ForecastPoint),
       filter_by_period api "week" now parsed = .ok out → 7 ≤ parsed.length →
       out.length = 7) := by
  refine ⟨?_, ?_, ?_, ?_, ?_, ?_⟩
  · intro api l h
    unfold parse_current_response at h
    iterate 15 obtain ⟨_, _, h⟩ := bind_ok_inv h
    injection h with h2
    rw [← h2]
    rfl
  · intro api now out h
    unfold parse_forecast_response at h
    rw [if_pos (by simp)] at h
    obtain ⟨raw, hraw, h⟩ := bind_ok_inv h
    dsimp only at h
    split at h
    · injection h with h2
      rw [← h2]
      simp
    · obtain ⟨items, hitems, h⟩ := bind_ok_inv h
      obtain ⟨parsed, hparsed, h⟩ := bind_ok_inv h
      unfold filter_by_period at h
      rw [if_pos rfl] at h
      injection h with h2
      rw [← h2]
      calc (parsed.take 12).length ≤ 12 := List.length_take_le _ _
      _ ≤ 48 := by norm_num
  · intro api now parsed out h hnd
    unfold filter_by_period at h
    rw [if_neg (by decide), if_pos rfl] at h
    obtain ⟨tzJ, htzJ, h⟩ := bind_ok_inv h
    obtain ⟨tzo, htzo, h⟩ := bind_ok_inv h
    obtain ⟨items, hitems, h⟩ := bind_ok_inv h
    injection h with h2
    obtain ⟨fs, rfl, htzJval⟩ := pyGet_ok htzJ
    have htzeq : apiTz (.obj fs) = tzo := by
      unfold apiTz
      dsimp only
      rw [← htzJval, asNum_ok htzo]
      rfl
    have hlen : out.length = items.length := by
      rw [← h2]
      exact (List.perm_insertionSort dtLe items).length_eq
    rw [hlen]
    have hsub := filterE_sublist _ parsed items hitems
    have hmapsub : (items.map (fun p => pyHour (dtKey p + tzo))).Sublist
        (parsed.map (fun p => pyHour (dtKey p + tzo))) := hsub.map _
    rw [htzeq] at hnd
    have hnd2 : (items.map (fun p => pyHour (dtKey p + tzo))).Nodup :=
      List.Nodup.sublist hmapsub hnd
    have hmem : ∀ x ∈ items.map (fun p => pyHour (dtKey p + tzo)),
        x ∈ targetLocalHours := by
      intro x hx
      rw [List.mem_map] at hx
      obtain ⟨p, hp, rfl⟩ := hx
      obtain ⟨q, hq, hmem2⟩ := todayCheck_true (filterE_mem _ parsed items p hitems hp)
      have hdt : dtKey p = q := by unfold dtKey; rw [hq]; exact Option.getD_some
      rw [hdt]
      exact hmem2
    calc items.length = (items.map (fun p => pyHour (dtKey p + tzo))).length :=
          (List.length_map _ _).symm
    _ ≤ targetLocalHours.length := nodup_subset_length _ _ hnd2 hmem
    _ = 8 := rfl
  · intro api now parsed out h
    unfold filter_by_period at h
    rw [if_neg (by decide), if_neg (by decide), if_pos rfl] at h
    obtain ⟨tzJ, _, h⟩ := bind_ok_inv h
    obtain ⟨tzo, _, h⟩ := bind_ok_inv h
    obtain ⟨cands, _, h⟩ := bind_ok_inv h
    injection h with h2
    rw [← h2, (List.perm_insertionSort dtLe _).length_eq]
    exact selectTomorrow_length_le tzo cands
  · intro api now parsed out h h3
    unfold filter_by_period at h
    rw [if_neg (by decide), if_neg (by decide), if_neg (by decide), if_pos rfl] at h
    injection h with h2
    rw [← h2, List.length_take]
    omega
  · intro api now parsed out h h7
    unfold filter_by_period at h
    rw [if_neg (by decide), if_neg (by decide), if_neg (by decide), if_neg (by decide),
        if_pos rfl] at h
    injection h with h2
    rw [← h2, List.length_take]
    omega

/-- Witness for the amended C3: a concrete current parse of length 1 and a
concrete one-point today filter within the bound. -/
theorem snapshot_shape_amended_witness :
    ([(⟨.num 0, .num 0, .num 0, .num 0, .num 0, .num 0, .null, .null, .null, .null,
        .str "", .str ""⟩ : CurrentPoint)]).length = 1 ∧
    ([(⟨.num 7200, .num 0, .null, .null, .num 0, .num 0, .num 0, .num 0, .null, .null,
        .null, .null, .null, .null, .null, .str "", .str ""⟩ : ForecastPoint)]).length ≤ 8 :=
  ⟨snapshot_shape_amended.1 (.obj []) _ (by decide),
   snapshot_shape_amended.2.2.1 (.obj []) 43200
     [⟨.num 7200, .num 0, .null, .null, .num 0, .num 0, .num 0, .num 0, .null, .null,
       .null, .null, .null, .null, .null, .str "", .str ""⟩]
     [⟨.num 7200, .num 0, .null, .null, .num 0, .num 0, .num 0, .num 0, .null, .null,
       .null, .null, .null, .null, .null, .str "", .str ""⟩]
     (by decide) (by decide)⟩

end DJWR

namespace DJWR



theorem mergeQual_true_iff {ts : Int} {p : ForecastPoint} :
    mergeQual ts p = true ↔
      ∃ q, jNum? p.dt = some q ∧ (ts ≤ q ∧ q < ts + 86400) ∧
        pyHour q ∈ targetLocalHours := by
  unfold mergeQual
  cases hq : jNum? p.dt with
  | none => simp
  | some q => simp [hq, decide_eq_true_iff]

theorem qualAt_true_iff {ts hh : Int} {p : ForecastPoint} :
    qualAt ts hh p = true ↔ mergeQual ts p = true ∧ hourOfP p = hh := by
  simp [qualAt]

theorem option_some_or {α : Type} (a : α) (x : Option α) : (some a).or x = some a := rfl

/-- Injectivity on a list from a duplicate-free image. -/
theorem nodup_map_inj {α β : Type} {f : α → β} :
    ∀ {l : List α}, (l.map f).Nodup →
      ∀ x ∈ l, ∀ y ∈ l, f x = f y → x = y := by
  intro l
  induction l with
  | nil => intro _ x hx; exact absurd hx (List.not_mem_nil x)
  | cons a l ih =>
    intro hn x hx y hy hf
    rw [List.map_cons, List.nodup_cons] at hn
    rcases List.mem_cons.mp hx with rfl | hx2
    · rcases List.mem_cons.mp hy with rfl | hy2
      · rfl
      · exact absurd (hf ▸ List.mem_map_of_mem f hy2) hn.1
    · rcases List.mem_cons.mp hy with rfl | hy2
      · exact absurd (hf ▸ List.mem_map_of_mem f hx2) hn.1
      · exact ih hn.2 x hx2 y hy2 hf

/-- One merge-loop step, characterized as a pointwise dictionary update. -/
theorem mergeUpd_ok {ts : Int} {d d' : Int → Option ForecastPoint} {p : ForecastPoint}
    (h : mergeUpd ts d p = .ok d') (hh : Int) :
    d' hh = if mergeQual ts p = true ∧ hourOfP p = hh then some p else d hh := by
  unfold mergeUpd asNum at h
  cases hq : jNum? p.dt with
  | none => rw [hq] at h; exact absurd h (by simp)
  | some q =>
    rw [hq] at h
    simp only [exceptBind_ok] at h
    have hP : hourOfP p = pyHour q := by simp [hourOfP, hq]
    split at h
    next hin =>
      split at h
      next htar =>
        injection h with h2
        rw [← h2]
        have hq1 : mergeQual ts p = true := by
          unfold mergeQual; rw [hq]; exact decide_eq_true ⟨hin, htar⟩
        rw [hq1, hP]
        dsimp only
        by_cases hhq : hh = pyHour q
        · rw [if_pos hhq, if_pos (show true = true ∧ pyHour q = hh from ⟨rfl, hhq.symm⟩)]
        · rw [if_neg hhq, if_neg (show ¬(true = true ∧ pyHour q = hh) from
            fun hc => hhq hc.2.symm)]
      next htar =>
        injection h with h2
        rw [← h2]
        have hq1 : mergeQual ts p = false := by
          unfold mergeQual; rw [hq]; exact decide_eq_false (fun hc => htar hc.2)
        rw [if_neg (by simp [hq1])]
    next hin =>
      injection h with h2
      rw [← h2]
      have hq1 : mergeQual ts p = false := by
        unfold mergeQual; rw [hq]; exact decide_eq_false (fun hc => hin hc.1)
      rw [if_neg (by simp [hq1])]

/-- The merge-loop fold, characterized: the dictionary holds, at each hour, the
last qualifying point of the processed list, falling back to the initial
dictionary. -/
theorem foldlM_mergeUpd {ts : Int} :
    ∀ (l : List ForecastPoint) (d d' : Int → Option ForecastPoint),
      l.foldlM (mergeUpd ts) d = .ok d' →
      ∀ hh, d' hh = (l.reverse.find? (qualAt ts hh)).or (d hh) := by
  intro l
  induction l with
  | nil =>
    intro d d' h hh
    simp only [List.foldlM_nil] at h
    injection h with h2
    rw [← h2]
    simp
  | cons p l ih =>
    intro d d' h hh
    rw [List.foldlM_cons] at h
    obtain ⟨d1, hd1, h⟩ := bind_ok_inv h
    have hrec := ih d1 d' h hh
    have hstep : d1 hh = ([p].find? (qualAt ts hh)).or (d hh) := by
      rw [mergeUpd_ok hd1 hh]
      by_cases hc : mergeQual ts p = true ∧ hourOfP p = hh
      · have hqa : qualAt ts hh p = true := qualAt_true_iff.mpr hc
        rw [if_pos hc]
        simp [List.find?_cons, hqa, option_some_or]
      · have hqa : qualAt ts hh p = false := by
          cases hqa2 : qualAt ts hh p with
          | false => rfl
          | true => exact absurd (qualAt_true_iff.mp hqa2) hc
        rw [if_neg hc]
        simp [List.find?_cons, hqa]
    rw [hrec, hstep, List.reverse_cons, List.find?_append, Option.or_assoc]

/-- Core characterization of `_merge_today_data`: the result is a sort of the
schedule-ordered read-back of a dictionary holding, per hour, the last
qualifying new point, else the last qualifying saved point. -/
theorem merge_core {now : Int} {sd nd out : List ForecastPoint}
    (h : merge_today_data now sd nd = .ok out) :
    ∃ d2 : Int → Option ForecastPoint,
      (∀ hh, d2 hh = ((nd.reverse.find? (qualAt (todayStartOf now) hh)).or
                      (sd.reverse.find? (qualAt (todayStartOf now) hh))))
      ∧ out.Perm (targetLocalHours.filterMap d2)
      ∧ out.Pairwise (fun a b => dtKey a ≤ dtKey b) := by
  unfold merge_today_data at h
  obtain ⟨d1, hd1, h⟩ := bind_ok_inv h
  obtain ⟨d2, hd2, h⟩ := bind_ok_inv h
  injection h with h2
  refine ⟨d2, ?_, ?_, ?_⟩
  · intro hh
    rw [foldlM_mergeUpd nd d1 d2 hd2 hh, foldlM_mergeUpd sd (fun _ => none) d1 hd1 hh]
    simp
  · rw [← h2]
    exact List.perm_insertionSort dtLe _
  · rw [← h2]
    exact List.sorted_insertionSort dtLe _

/-- A point stored in the merge dictionary comes from one of the inputs,
qualifies, and is keyed under its own hour. -/
theorem find2_some {ts hh : Int} {sd nd : List ForecastPoint} {p : ForecastPoint}
    (h : ((nd.reverse.find? (qualAt ts hh)).or (sd.reverse.find? (qualAt ts hh))) = some p) :
    p ∈ sd ++ nd ∧ mergeQual ts p = true ∧ hourOfP p = hh := by
  cases hnd : nd.reverse.find? (qualAt ts hh) with
  | some x =>
    rw [hnd] at h
    simp only [option_some_or] at h
    injection h with h2
    subst h2
    have hmem := List.mem_reverse.mp (List.mem_of_find?_eq_some hnd)
    have hqa := qualAt_true_iff.mp (List.find?_some hnd)
    exact ⟨List.mem_append.mpr (Or.inr hmem), hqa.1, hqa.2⟩
  | none =>
    rw [hnd] at h
    simp only [Option.none_or] at h
    have hmem := List.mem_reverse.mp (List.mem_of_find?_eq_some h)
    have hqa := qualAt_true_iff.mp (List.find?_some h)
    exact ⟨List.mem_append.mpr (Or.inl hmem), hqa.1, hqa.2⟩

/-- Reading back a dictionary keyed by hours yields the hour list itself. -/
theorem filterMap_hours {d2 : Int → Option ForecastPoint}
    (hd : ∀ hh p, d2 hh = some p → hourOfP p = hh) :
    ∀ hs : List Int, (hs.filterMap d2).map hourOfP = hs.filter (fun hh => (d2 hh).isSome) := by
  intro hs
  induction hs with
  | nil => rfl
  | cons hh hs ih =>
    cases hdd : d2 hh with
    | none => simp [List.filterMap_cons, List.filter_cons, hdd, ih]
    | some p => simp [List.filterMap_cons, List.filter_cons, hdd, hd hh p hdd, ih]

end DJWR

namespace DJWR

/-- A qualifying point's hour is on the schedule. -/
theorem hourOfP_mem_target {ts : Int} {p : ForecastPoint}
    (hq : mergeQual ts p = true) : hourOfP p ∈ targetLocalHours := by
  obtain ⟨q, hq2, _, htar⟩ := mergeQual_true_iff.mp hq
  simpa [hourOfP, hq2] using htar

/-- When qualifying hours are pairwise distinct in a list, the last qualifying
point at a given hour is the (unique) qualifying point with that hour. -/
theorem find_unique_qual {ts : Int} {l : List ForecastPoint} {pf : ForecastPoint}
    (hnd : ((l.filter (mergeQual ts)).map hourOfP).Nodup)
    (hpf : pf ∈ l) (hq : mergeQual ts pf = true) :
    l.reverse.find? (qualAt ts (hourOfP pf)) = some pf := by
  have hex : (l.reverse.find? (qualAt ts (hourOfP pf))).isSome := by
    rw [List.find?_isSome]
    exact ⟨pf, List.mem_reverse.mpr hpf, qualAt_true_iff.mpr ⟨hq, rfl⟩⟩
  obtain ⟨x, hx⟩ := Option.isSome_iff_exists.mp hex
  have hxmem := List.mem_reverse.mp (List.mem_of_find?_eq_some hx)
  have hxq := qualAt_true_iff.mp (List.find?_some hx)
  have hxe : x = pf :=
    nodup_map_inj hnd x (List.mem_filter.mpr ⟨hxmem, hxq.1⟩)
      pf (List.mem_filter.mpr ⟨hpf, hq⟩) (by rw [hxq.2])
  rw [hx, hxe]

/-- C10: whenever `_merge_today_data` returns, its output has at most 8 points;
every output point has a numeric timestamp inside the current UTC calendar day
whose UTC hour lies in {2, 5, 8, 11, 14, 17, 20, 23}; no two output points
share an hour; every input point failing those conditions is dropped; and the
output is ordered by timestamp ascending. -/
theorem merge_today_invariants (now : Int) (saved new_data out : List ForecastPoint)
    (h : merge_today_data now saved new_data = .ok out) :
    out.length ≤ 8
    ∧ (∀ p ∈ out, ∃ q, jNum? p.dt = some q ∧
         todayStartOf now ≤ q ∧ q < todayStartOf now + 86400 ∧
         pyHour q ∈ targetLocalHours)
    ∧ (out.map hourOfP).Nodup
    ∧ (∀ p ∈ saved ++ new_data, mergeQual (todayStartOf now) p = false → p ∉ out)
    ∧ out.Pairwise (fun a b => dtKey a ≤ dtKey b) := by
  obtain ⟨d2, hdict, hperm, hsorted⟩ := merge_core h
  have hkey : ∀ hh p, d2 hh = some p → hourOfP p = hh := by
    intro hh p hd
    rw [hdict hh] at hd
    exact (find2_some hd).2.2
  have hmemout : ∀ p ∈ out, ∃ hh, hh ∈ targetLocalHours ∧ d2 hh = some p := by
    intro p hp
    obtain ⟨hh, hhmem, hd⟩ := List.mem_filterMap.mp (hperm.mem_iff.mp hp)
    exact ⟨hh, hhmem, hd⟩
  refine ⟨?_, ?_, ?_, ?_, hsorted⟩
  · rw [hperm.length_eq]
    calc (targetLocalHours.filterMap d2).length ≤ targetLocalHours.length :=
        List.length_filterMap_le _ _
    _ = 8 := rfl
  · intro p hp
    obtain ⟨hh, _, hd⟩ := hmemout p hp
    rw [hdict hh] at hd
    obtain ⟨q, hq2, hin, htar⟩ := mergeQual_true_iff.mp (find2_some hd).2.1
    exact ⟨q, hq2, hin.1, hin.2, htar⟩
  · have hnd : ((targetLocalHours.filterMap d2).map hourOfP).Nodup := by
      rw [filterMap_hours hkey]
      exact List.Nodup.filter _ (by decide)
    exact ((hperm.map hourOfP).nodup_iff).mpr hnd
  · intro p _ hfalse hpout
    obtain ⟨hh, _, hd⟩ := hmemout p hpout
    rw [hdict hh] at hd
    have hq := (find2_some hd).2.1
    rw [hfalse] at hq
    exact Bool.false_ne_true hq

/-- Witness for C10 at a concrete merge of one stored and one fresh point. -/
theorem merge_today_invariants_witness :
    ([⟨.num 7200, .num 1, .null, .null, .num 0, .num 0, .num 0, .num 0, .null, .null,
       .null, .null, .null, .null, .null, .str "", .str ""⟩,
      ⟨.num 50400, .num 2, .null, .null, .num 0, .num 0, .num 0, .num 0, .null, .null,
       .null, .null, .null, .null, .null, .str "", .str ""⟩] :
      List ForecastPoint).length ≤ 8 ∧
    (([⟨.num 7200, .num 1, .null, .null, .num 0, .num 0, .num 0, .num 0, .null, .null,
        .null, .null, .null, .null, .null, .str "", .str ""⟩,
       ⟨.num 50400, .num 2, .null, .null, .num 0, .num 0, .num 0, .num 0, .null, .null,
        .null, .null, .null, .null, .null, .str "", .str ""⟩] :
      List ForecastPoint).map hourOfP).Nodup :=
  ⟨(merge_today_invariants 43200
      [⟨.num 7200, .num 1, .null, .null, .num 0, .num 0, .num 0, .num 0, .null, .null,
        .null, .null, .null, .null, .null, .str "", .str ""⟩]
      [⟨.num 50400, .num 2, .null, .null, .num 0, .num 0, .num 0, .num 0, .null, .null,
        .null, .null, .null, .null, .null, .str "", .str ""⟩] _ (by decide)).1,
   (merge_today_invariants 43200
      [⟨.num 7200, .num 1, .null, .null, .num 0, .num 0, .num 0, .num 0, .null, .null,
        .null, .null, .null, .null, .null, .str "", .str ""⟩]
      [⟨.num 50400, .num 2, .null, .null, .num 0, .num 0, .num 0, .num 0, .null, .null,
        .null, .null, .null, .null, .null, .str "", .str ""⟩] _ (by decide)).2.2.1⟩

end DJWR

namespace DJWR

/-- C1: on a cache miss for "today" with a non-empty stored snapshot and a
successful upstream fetch and parse, `fetch_forecast` returns exactly the
merge of stored and fresh points (performing cache read, database read, one
upstream call, cache write with TTL 1800 and database upsert, in that order),
and the merged result satisfies: every point lies on a schedule interval of the
current day; the point at an interval a fresh point covers is that fresh point
(fresh overrides stored); a stored point at an interval no fresh point covers
is kept; and the result is ordered by timestamp ascending.  The distinct-hours
hypotheses say no list carries two qualifying points in the same interval. -/
theorem fetch_forecast_today_merge (env : FetchEnv) (stored pts out : List ForecastPoint)
    (api tz : JVal)
    (hc : env.cached = none)
    (hs : env.savedRow = some stored) (hne : stored ≠ [])
    (ha : env.apiResp = .ok api)
    (hp : parse_forecast_response api "today" env.now = .ok pts)
    (htz : pyGet api "timezone_offset" (.num 0) = .ok tz)
    (hm : merge_today_data env.now stored pts = .ok out)
    (hnd1 : ((stored.filter (mergeQual (todayStartOf env.now))).map hourOfP).Nodup)
    (hnd2 : ((pts.filter (mergeQual (todayStartOf env.now))).map hourOfP).Nodup) :
    fetch_forecast env "today" =
      (.ok (out, tz), [.cacheRead, .dbRead, .apiCall, .cacheWrite 1800, .dbWrite])
    ∧ (∀ p ∈ out, mergeQual (todayStartOf env.now) p = true)
    ∧ (∀ pf ∈ pts, mergeQual (todayStartOf env.now) pf = true →
         pf ∈ out ∧ ∀ p ∈ out, hourOfP p = hourOfP pf → p = pf)
    ∧ (∀ ps ∈ stored, mergeQual (todayStartOf env.now) ps = true →
         (∀ pf ∈ pts, mergeQual (todayStartOf env.now) pf = true →
            hourOfP pf ≠ hourOfP ps) →
         ps ∈ out)
    ∧ out.Pairwise (fun a b => dtKey a ≤ dtKey b) := by
  obtain ⟨d2, hdict, hperm, hsorted⟩ := merge_core hm
  have httl : get_cache_ttl "today" = 1800 := by decide
  have hfetch : fetch_forecast env "today" =
      (.ok (out, tz), [.cacheRead, .dbRead, .apiCall, .cacheWrite 1800, .dbWrite]) := by
    unfold fetch_forecast
    rw [if_neg (by decide :
      ¬("today" ∉ (["today", "tomorrow", "3days", "week", "hourly"] : List String)))]
    rw [hc]
    cases stored with
    | nil => exact absurd rfl hne
    | cons s ss =>
      dsimp only
      rw [if_pos rfl, if_pos rfl, hs]
      dsimp only
      rw [ha]
      dsimp only
      rw [hp]
      dsimp only
      rw [htz]
      dsimp only
      rw [hm]
      dsimp only
      rw [httl]
      rfl
  refine ⟨hfetch, ?_, ?_, ?_, hsorted⟩
  · intro p hpo
    obtain ⟨hh, hhmem, hd⟩ := List.mem_filterMap.mp (hperm.mem_iff.mp hpo)
    rw [hdict hh] at hd
    exact (find2_some hd).2.1
  · intro pf hpf hqf
    have hd2 : d2 (hourOfP pf) = some pf := by
      rw [hdict (hourOfP pf), find_unique_qual hnd2 hpf hqf, option_some_or]
    constructor
    · exact hperm.mem_iff.mpr
        (List.mem_filterMap.mpr ⟨hourOfP pf, hourOfP_mem_target hqf, hd2⟩)
    · intro p hpo hhp
      obtain ⟨hh, hhm, hdp⟩ := List.mem_filterMap.mp (hperm.mem_iff.mp hpo)
      have hdp1 := hdp
      rw [hdict hh] at hdp1
      have hkeyp : hourOfP p = hh := (find2_some hdp1).2.2
      have hhh : hh = hourOfP pf := by rw [← hkeyp, hhp]
      rw [hhh, hd2] at hdp
      injection hdp with hinj
      exact hinj.symm
  · intro ps hps hqs hnofresh
    have hfindn : pts.reverse.find? (qualAt (todayStartOf env.now) (hourOfP ps)) = none := by
      rw [List.find?_eq_none]
      intro x hx hqa
      have hxq := qualAt_true_iff.mp hqa
      exact (hnofresh x (List.mem_reverse.mp hx) hxq.1) hxq.2
    have hd2 : d2 (hourOfP ps) = some ps := by
      rw [hdict (hourOfP ps), hfindn, Option.none_or, find_unique_qual hnd1 hps hqs]
    exact hperm.mem_iff.mpr
      (List.mem_filterMap.mpr ⟨hourOfP ps, hourOfP_mem_target hqs, hd2⟩)

/-- Witness for C1: a stored local-hour-2 point and a freshly fetched
local-hour-14 point (UTC offset 0), merged through `fetch_forecast`: both
appear, ascending. -/
theorem fetch_forecast_today_merge_witness :
    fetch_forecast
      ⟨none, .error (),
       some [⟨.num 7200, .num 1, .null, .null, .num 0, .num 0, .num 0, .num 0, .null,
              .null, .null, .null, .null, .null, .null, .str "", .str ""⟩],
       .ok (.obj [("timezone_offset", .num 0),
                  ("hourly", .arr [.obj [("dt", .num 50400)]])]),
       43200⟩ "today" =
      (.ok ([⟨.num 7200, .num 1, .null, .null, .num 0, .num 0, .num 0, .num 0, .null,
              .null, .null, .null, .null, .null, .null, .str "", .str ""⟩,
             ⟨.num 50400, .num 0, .null, .null, .num 0, .num 0, .num 0, .num 0, .null,
              .null, .null, .null, .null, .null, .null, .str "", .str ""⟩], .num 0),
       [.cacheRead, .dbRead, .apiCall, .cacheWrite 1800, .dbWrite]) :=
  (fetch_forecast_today_merge
    ⟨none, .error (),
     some [⟨.num 7200, .num 1, .null, .null, .num 0, .num 0, .num 0, .num 0, .null,
            .null, .null, .null, .null, .null, .null, .str "", .str ""⟩],
     .ok (.obj [("timezone_offset", .num 0),
                ("hourly", .arr [.obj [("dt", .num 50400)]])]),
     43200⟩
    [⟨.num 7200, .num 1, .null, .null, .num 0, .num 0, .num 0, .num 0, .null,
      .null, .null, .null, .null, .null, .null, .str "", .str ""⟩]
    [⟨.num 50400, .num 0, .null, .null, .num 0, .num 0, .num 0, .num 0, .null,
      .null, .null, .null, .null, .null, .null, .str "", .str ""⟩]
    [⟨.num 7200, .num 1, .null, .null, .num 0, .num 0, .num 0, .num 0, .null,
      .null, .null, .null, .null, .null, .null, .str "", .str ""⟩,
     ⟨.num 50400, .num 0, .null, .null, .num 0, .num 0, .num 0, .num 0, .null,
      .null, .null, .null, .null, .null, .null, .str "", .str ""⟩]
    (.obj [("timezone_offset", .num 0), ("hourly", .arr [.obj [("dt", .num 50400)]])])
    (.num 0)
    rfl rfl (by decide) rfl (by decide) (by decide) (by decide) (by decide) (by decide)).1

end DJWR
